import Mathlib

/-!
Shallow embedding of the session supervisor of the `golang-wa` gateway
(registry, rate limiter, duplicate limiter, connect retry, reconnect
backoff, send pipeline, QR linking, logout) together with theorems
settling the specification claims about it.

Time is modelled as integer seconds (or milliseconds where the source
sleeps sub-second amounts); Go maps are modelled as association lists;
Go errors become small inductive types; the upstream whatsmeow library
is an oracle parameter (each call outcome is an explicit input).
-/

namespace GolangWa

/-- Association-list lookup, modelling a read of a Go map. -/
def alFind {κ α : Type} [DecidableEq κ] (l : List (κ × α)) (k : κ) : Option α :=
  match l with
  | [] => none
  | (k2, v) :: rest => if k2 = k then some v else alFind rest k

/-- Association-list insert/overwrite, modelling a write to a Go map. -/
def alInsert {κ α : Type} [DecidableEq κ] (l : List (κ × α)) (k : κ) (v : α) : List (κ × α) :=
  match l with
  | [] => [(k, v)]
  | (k2, v2) :: rest => if k2 = k then (k2, v) :: rest else (k2, v2) :: alInsert rest k v

/-- Association-list delete, modelling `delete(m, k)` on a Go map. -/
def alErase {κ α : Type} [DecidableEq κ] (l : List (κ × α)) (k : κ) : List (κ × α) :=
  match l with
  | [] => []
  | (k2, v2) :: rest => if k2 = k then alErase rest k else (k2, v2) :: alErase rest k

theorem alFind_alInsert {κ α : Type} [DecidableEq κ] (l : List (κ × α)) (k : κ) (v : α) :
    alFind (alInsert l k v) k = some v := by
  induction l with
  | nil => simp [alInsert, alFind]
  | cons hd tl ih =>
    obtain ⟨k2, v2⟩ := hd
    by_cases h : k2 = k <;> simp [alInsert, alFind, h, ih]

/-! ## DuplicateMessageLimiter (internal/app/app.go)

`duplicateEntry` holds `windowStart time.Time` and `count int`.  The Go
zero `time.Time` (for which `IsZero()` is true) is modelled as `none`. -/

/-- One entry of `DuplicateMessageLimiter.entries` (internal/app/app.go,
`duplicateEntry`). -/
structure DupEntry where
  windowStart : Option Int
  count : Int
deriving Repr, DecidableEq

/-- The `entries` map of `DuplicateMessageLimiter`. -/
abbrev DupState : Type := List (String × DupEntry)

/-- Result of `DuplicateMessageLimiter.Allow`: the updated limiter state and
the two Go return values `(bool, time.Duration)`. -/
structure AllowResult where
  state : DupState
  allowed : Bool
  retryAfter : Int

/-- `DuplicateMessageLimiter.Allow` (internal/app/app.go lines 91-119),
state-passing form.  `now` is the current time in the same unit as
`window`.  A missing map entry reads as the zero `duplicateEntry`. -/
def dupAllow (st : DupState) (key : String) (maxN window now : Int) : AllowResult :=
  if maxN ≤ 0 ∨ window ≤ 0 then
    ⟨st, true, 0⟩
  else
    let entry := (alFind st key).getD ⟨none, 0⟩
    let entry :=
      if entry.windowStart.isNone ∨ window < now - entry.windowStart.getD 0 then
        ⟨some now, 0⟩
      else entry
    if entry.count ≥ maxN then
      let retryAfter := window - (now - entry.windowStart.getD 0)
      ⟨st, false, if retryAfter < 0 then 0 else retryAfter⟩
    else
      ⟨alInsert st key ⟨entry.windowStart, entry.count + 1⟩, true, 0⟩

/-- Run `Allow` over a sequence of call times for a single key, returning the
per-call `(allowed, retryAfter)` results and the final state. -/
def dupRun (st : DupState) (key : String) (maxN window : Int) :
    List Int → List (Bool × Int) × DupState
  | [] => ([], st)
  | t :: ts =>
    let r := dupAllow st key maxN window t
    let (rs, st2) := dupRun r.state key maxN window ts
    ((r.allowed, r.retryAfter) :: rs, st2)

/-- The call times of a `dupRun` that were allowed (forwarded to Transport). -/
def dupAllowedTimes (st : DupState) (key : String) (maxN window : Int) :
    List Int → List Int
  | [] => []
  | t :: ts =>
    let r := dupAllow st key maxN window t
    let rest := dupAllowedTimes r.state key maxN window ts
    if r.allowed then t :: rest else rest

/-- The `retryAfter` values of the denied calls of a `dupRun`. -/
def dupDeniedRetries (st : DupState) (key : String) (maxN window : Int) :
    List Int → List Int
  | [] => []
  | t :: ts =>
    let r := dupAllow st key maxN window t
    let rest := dupDeniedRetries r.state key maxN window ts
    if r.allowed then rest else r.retryAfter :: rest

/-! ## SendRateLimiter (internal/app/app.go) -/

/-- The `nextAllowed` map of `SendRateLimiter`; the Go zero `time.Time`
default of a missing key is modelled as reading `0`. -/
abbrev RateState : Type := List (String × Int)

/-- Result of `SendRateLimiter.Wait`: the updated `nextAllowed` map and the
time at which the caller resumes (after the `time.Sleep`, if any). -/
structure WaitResult where
  state : RateState
  resumeAt : Int

/-- `SendRateLimiter.Wait` (internal/app/app.go lines 52-70), state-passing
form: `now` is the entry time; the caller resumes at `resumeAt`. -/
def rateWait (st : RateState) (user : String) (delay now : Int) : WaitResult :=
  if delay ≤ 0 then
    ⟨st, now⟩
  else
    let next := (alFind st user).getD 0
    if now < next then
      ⟨alInsert st user (next + delay), next⟩
    else
      ⟨alInsert st user (now + delay), now⟩

/-- Times of `l` lying in the closed window `[lo, lo + window]`. -/
def countInWindow (l : List Int) (lo window : Int) : Nat :=
  (l.filter (fun t => decide (lo ≤ t) && decide (t ≤ lo + window))).length

/-- Modelled from the spec: the send-pipeline duplicate-suppression step.
The messaging `Service` revision that consults `App.DuplicateLimiter` is not
among the provided sources (only the limiter itself in internal/app/app.go,
the `DuplicateMessageError` type in internal/messaging/errors.go and the
HTTP handler that unwraps it are); per §4.7 step 4 of the spec, a denied
send fails with `DuplicateMessage{retryAfter}` and is surfaced to the
caller without any internal retry, and only an allowed send reaches the
Transport.  The third component counts Transport send calls made. -/
def pipelineDupCheck (st : DupState) (key : String) (maxN window now : Int) :
    (Option Int) × DupState × Nat :=
  let r := dupAllow st key maxN window now
  if r.allowed then (none, r.state, 1) else (some r.retryAfter, r.state, 0)

theorem dupRun_max_one_inv (key : String) (window : Int) (hw : 0 < window) :
    ∀ (times : List Int) (st : DupState),
      times.Pairwise (· ≤ ·) →
      (alFind st key = none ∨
        ∃ ws, alFind st key = some ⟨some ws, 1⟩ ∧ ∀ t ∈ times, ws ≤ t) →
      (dupAllowedTimes st key 1 window times).Pairwise (fun a b => window < b - a) ∧
      (∀ ws, alFind st key = some ⟨some ws, 1⟩ →
        ∀ a ∈ dupAllowedTimes st key 1 window times, window < a - ws) ∧
      (∀ r ∈ dupDeniedRetries st key 1 window times, 0 ≤ r ∧ r ≤ window) := by
  intro times
  induction times with
  | nil =>
    intro st _ _
    simp [dupAllowedTimes, dupDeniedRetries]
  | cons t ts ih =>
    intro st hmono hinv
    have hmono' : ts.Pairwise (· ≤ ·) := (List.pairwise_cons.mp hmono).2
    have hle : ∀ u ∈ ts, t ≤ u := (List.pairwise_cons.mp hmono).1
    have hcond : ¬ ((1 : Int) ≤ 0 ∨ window ≤ 0) := by omega
    have hwn : ¬ window ≤ 0 := by omega
    rcases hinv with hnone | ⟨ws, hws, hwsle⟩
    · -- entry absent: reset to ⟨some t, 0⟩, call is allowed
      have hstep : dupAllow st key 1 window t =
          ⟨alInsert st key ⟨some t, 1⟩, true, 0⟩ := by
        simp [dupAllow, hcond, hnone, hw, hwn]
      have hfind : alFind (alInsert st key ⟨some t, 1⟩) key = some ⟨some t, 1⟩ :=
        alFind_alInsert st key _
      have hih := ih (alInsert st key ⟨some t, 1⟩) hmono'
        (Or.inr ⟨t, hfind, hle⟩)
      refine ⟨?_, ?_, ?_⟩
      · simp only [dupAllowedTimes, hstep]
        exact List.pairwise_cons.mpr ⟨fun b hb => hih.2.1 t hfind b hb, hih.1⟩
      · intro ws2 hws2
        rw [hws2] at hnone
        exact absurd hnone (by simp)
      · simp only [dupDeniedRetries, hstep]
        exact hih.2.2
    · -- entry present with count 1, windowStart ws
      have hwt : ws ≤ t := hwsle t (by simp)
      by_cases hreset : window < t - ws
      · -- window expired: reset, call allowed
        have hstep : dupAllow st key 1 window t =
            ⟨alInsert st key ⟨some t, 1⟩, true, 0⟩ := by
          simp [dupAllow, hcond, hws, hreset, hw, hwn]
        have hfind : alFind (alInsert st key ⟨some t, 1⟩) key = some ⟨some t, 1⟩ :=
          alFind_alInsert st key _
        have hih := ih (alInsert st key ⟨some t, 1⟩) hmono'
          (Or.inr ⟨t, hfind, hle⟩)
        refine ⟨?_, ?_, ?_⟩
        · simp only [dupAllowedTimes, hstep]
          exact List.pairwise_cons.mpr ⟨fun b hb => hih.2.1 t hfind b hb, hih.1⟩
        · intro ws2 hws2
          rw [hws] at hws2
          obtain rfl : ws2 = ws := by
            have := Option.some.inj hws2
            simpa using congrArg DupEntry.windowStart this.symm
          simp only [dupAllowedTimes, hstep]
          intro a ha
          rcases List.mem_cons.mp ha with rfl | ha2
          · exact hreset
          · have := hih.2.1 t hfind a ha2
            omega
        · simp only [dupDeniedRetries, hstep]
          exact hih.2.2
      · -- still inside the window: denied, state unchanged
        have hstep : dupAllow st key 1 window t =
            ⟨st, false, window - (t - ws)⟩ := by
          have : ¬ (window - (t - ws) < 0) := by omega
          simp [dupAllow, hcond, hws, hreset, this, hw, hwn]
        have hih := ih st hmono' (Or.inr ⟨ws, hws, fun u hu => le_trans hwt (hle u hu)⟩)
        refine ⟨?_, ?_, ?_⟩
        · simp only [dupAllowedTimes, hstep]
          exact hih.1
        · intro ws2 hws2
          simp only [dupAllowedTimes, hstep]
          exact hih.2.1 ws2 hws2
        · simp only [dupDeniedRetries, hstep]
          intro r hr
          rcases List.mem_cons.mp hr with rfl | hr2
          · omega
          · exact hih.2.2 r hr2

/-- C2 counterexample: with `duplicate_max = 2` and `duplicate_window = 10`,
calls with the same key at times 0, 9, 11 and 12 are all allowed by
`DuplicateMessageLimiter.Allow` (the fixed window resets at time 11), so the
length-10 window starting at time 2 contains 3 forwarded sends — more than
`duplicate_max`.  This refutes "within any window of length
`duplicate_window`, at most `duplicate_max` sends with identical
`DuplicateKey` are forwarded to Transport". -/
theorem dup_sliding_window_counterexample :
    dupAllowedTimes [] "dup-key" 2 10 [0, 9, 11, 12] = [0, 9, 11, 12] ∧
    countInWindow (dupAllowedTimes [] "dup-key" 2 10 [0, 9, 11, 12]) 2 10 = 3 ∧
    ¬ (countInWindow (dupAllowedTimes [] "dup-key" 2 10 [0, 9, 11, 12]) 2 10 ≤ 2) := by
  refine ⟨by decide, by decide, by decide⟩

/-- C2 (amended): for `duplicate_max = 1` (the default) and a positive
window, over any chronological sequence of `Allow` calls for one key
starting from a fresh limiter, any two allowed (forwarded) sends are more
than `duplicate_window` apart — so at most one send is forwarded within any
window of that length — and every denied attempt carries
`0 ≤ retryAfter ≤ duplicate_window`; a denied send is surfaced as
`DuplicateMessage` with that `retryAfter` and makes no Transport call. -/
theorem dup_suppression_max_one (key : String) (window : Int) (times : List Int)
    (hw : 0 < window) (hmono : times.Pairwise (· ≤ ·)) :
    (dupAllowedTimes [] key 1 window times).Pairwise (fun a b => window < b - a) ∧
    (∀ r ∈ dupDeniedRetries [] key 1 window times, 0 ≤ r ∧ r ≤ window) ∧
    (∀ (st : DupState) (maxN now : Int),
      (dupAllow st key maxN window now).allowed = false →
      pipelineDupCheck st key maxN window now =
        (some (dupAllow st key maxN window now).retryAfter,
         (dupAllow st key maxN window now).state, 0)) := by
  have h := dupRun_max_one_inv key window hw times [] hmono (Or.inl rfl)
  refine ⟨h.1, h.2.2, ?_⟩
  intro st maxN now hden
  simp [pipelineDupCheck, hden]

/-- C2 witness: window 10, calls at times 0, 3 and 11: the sends at 0 and 11
are forwarded (gap 11 > 10), the attempt at time 3 is denied with
`retryAfter = 7 ∈ [0, 10]`. -/
theorem dup_suppression_max_one_witness :
    (0 : Int) < 10 ∧ ([0, 3, 11] : List Int).Pairwise (· ≤ ·) ∧
    ((dupAllowedTimes [] "k" 1 10 [0, 3, 11]).Pairwise (fun a b => (10 : Int) < b - a) ∧
     (∀ r ∈ dupDeniedRetries [] "k" 1 10 [0, 3, 11], 0 ≤ r ∧ r ≤ 10)) := by
  have h := dup_suppression_max_one "k" 10 [0, 3, 11] (by decide) (by decide)
  exact ⟨by decide, by decide, h.1, h.2.1⟩

/-- C8: for positive spacing `delay`, `SendRateLimiter.Wait` resumes the
caller at `max now next` (so not before `nextAllowedAt[user]`), stores
`max now next + delay` as the user's new `nextAllowedAt`, and any
immediately following `Wait` for the same user resumes at least `delay`
after this one: consecutive permitted sends are spaced at least `delay`
apart. -/
theorem rateWait_spacing (st : RateState) (user : String) (delay now : Int)
    (hd : 0 < delay) :
    (rateWait st user delay now).resumeAt = max now ((alFind st user).getD 0) ∧
    (alFind st user).getD 0 ≤ (rateWait st user delay now).resumeAt ∧
    alFind (rateWait st user delay now).state user =
      some (max now ((alFind st user).getD 0) + delay) ∧
    (∀ now2, (rateWait st user delay now).resumeAt + delay ≤
      (rateWait (rateWait st user delay now).state user delay now2).resumeAt) := by
  have hdn : ¬ delay ≤ 0 := by omega
  unfold rateWait
  simp only [hdn, if_false]
  set next := (alFind st user).getD 0 with hnext
  by_cases h1 : now < next
  · simp only [h1, if_true]
    refine ⟨by omega, by omega, ?_, ?_⟩
    · rw [alFind_alInsert]
      congr 1
      omega
    · intro now2
      simp only [hdn, if_false, alFind_alInsert, Option.getD_some]
      by_cases h2 : now2 < next + delay <;> simp [h2] <;> omega
  · simp only [h1, if_false]
    refine ⟨by omega, by omega, ?_, ?_⟩
    · rw [alFind_alInsert]
      congr 1
      omega
    · intro now2
      simp only [hdn, if_false, alFind_alInsert, Option.getD_some]
      by_cases h2 : now2 < now + delay <;> simp [h2] <;> omega

/-- C8 witness: user "u", spacing 6, first call at time 100 on a fresh
limiter resumes immediately and schedules `nextAllowedAt = 106`; any second
call resumes no earlier than time 106. -/
theorem rateWait_spacing_witness :
    (0 : Int) < 6 ∧
    ((rateWait [] "u" 6 100).resumeAt = max 100 ((alFind ([] : RateState) "u").getD 0) ∧
     alFind (rateWait [] "u" 6 100).state "u" =
       some (max 100 ((alFind ([] : RateState) "u").getD 0) + 6)) := by
  have h := rateWait_spacing [] "u" 6 100 (by decide)
  exact ⟨by decide, h.1, h.2.2.1⟩

/-- C10: non-positive duplicate-suppression parameters disable suppression:
if `max ≤ 0` or `window ≤ 0`, `DuplicateMessageLimiter.Allow` returns
allowed with zero `retryAfter` and leaves the limiter state unchanged. -/
theorem dupAllow_disabled (st : DupState) (key : String) (maxN window now : Int)
    (h : maxN ≤ 0 ∨ window ≤ 0) :
    dupAllow st key maxN window now = ⟨st, true, 0⟩ := by
  unfold dupAllow
  rw [if_pos h]

/-- C10 witness: `max = 0` (with window 5) lets a call through on an empty
limiter and leaves it empty. -/
theorem dupAllow_disabled_witness :
    ((0 : Int) ≤ 0 ∨ (5 : Int) ≤ 0) ∧
    dupAllow [] "k" 0 5 7 = ⟨[], true, 0⟩ :=
  ⟨Or.inl (by decide), dupAllow_disabled [] "k" 0 5 7 (Or.inl (by decide))⟩

/-! ## ConnectWithRetry (session Service.ConnectWithRetry) -/

/-- Outcome classification of one `client.Connect()` error inside
`ConnectWithRetry`: the source distinguishes errors whose text contains
"websocket is already connected" from all others. -/
inductive ConnErr where
  | alreadyConnected
  | otherErr
deriving Repr, DecidableEq, Fintype

/-- Oracle for one iteration of the `ConnectWithRetry` loop: what
`client.IsConnected()` reports at the top of the iteration, and the result
of the `client.Connect()` call (`none` is success). -/
structure ConnAttempt where
  connectedBefore : Bool
  result : Option ConnErr
deriving Repr, DecidableEq, Fintype

/-- Observable transport actions of the retry loops. -/
inductive CAction where
  | disconnectCall
  | sleepMs (n : Nat)
  | connectCall
deriving Repr, DecidableEq

/-- Pre-connect guard of one `ConnectWithRetry` iteration: an
already-connected client is disconnected first and the loop sleeps 500 ms. -/
def cwrPre (env : ConnAttempt) : List CAction :=
  if env.connectedBefore then [CAction.disconnectCall, CAction.sleepMs 500] else []

/-- Failure handling of one `ConnectWithRetry` iteration:
"websocket is already connected" gets a disconnect plus a 1 s sleep, any
other error a plain 500 ms sleep. -/
def cwrPost : ConnErr → List CAction
  | ConnErr.alreadyConnected => [CAction.disconnectCall, CAction.sleepMs 1000]
  | ConnErr.otherErr => [CAction.sleepMs 500]

/-- Full action trace of one failed (or final successful) iteration. -/
def cwrSeg (env : ConnAttempt) : List CAction :=
  cwrPre env ++ [CAction.connectCall] ++
    (match env.result with
     | none => []
     | some e => cwrPost e)

/-- `Service.ConnectWithRetry` (session service): the
`for i := 0; i < maxRetries; i++` loop with `maxRetries = 3`, unrolled over
the three per-iteration oracles.  Returns the Go `error` result (`none` is
success) and the transport action trace. -/
def connectWithRetry (e0 e1 e2 : ConnAttempt) : Option ConnErr × List CAction :=
  match e0.result with
  | none => (none, cwrPre e0 ++ [CAction.connectCall])
  | some _ =>
    match e1.result with
    | none => (none, cwrSeg e0 ++ (cwrPre e1 ++ [CAction.connectCall]))
    | some _ =>
      match e2.result with
      | none => (none, cwrSeg e0 ++ cwrSeg e1 ++ (cwrPre e2 ++ [CAction.connectCall]))
      | some r2 => (some r2, cwrSeg e0 ++ cwrSeg e1 ++ cwrSeg e2)

/-- Number of `client.Connect()` calls in a trace. -/
def countConnects (l : List CAction) : Nat :=
  l.countP fun a => match a with
    | CAction.connectCall => true
    | _ => false

/-- C6: `ConnectWithRetry` makes at most 3 connect attempts; before each
attempt a connected transport is disconnected with a 500 ms sleep
(`cwrPre`); a successful connect returns success immediately with no
further actions; a failed attempt is followed by `cwrPost` (disconnect +
1 s sleep for "websocket is already connected", a 500 ms sleep otherwise)
before the next attempt; when all three attempts fail the last error is
returned. -/
theorem connectWithRetry_behavior (e0 e1 e2 : ConnAttempt) :
    countConnects (connectWithRetry e0 e1 e2).2 ≤ 3 ∧
    (e0.result = none →
      connectWithRetry e0 e1 e2 = (none, cwrPre e0 ++ [CAction.connectCall])) ∧
    ((e0.result.isSome && e1.result.isNone) = true →
      connectWithRetry e0 e1 e2 =
        (none, cwrSeg e0 ++ (cwrPre e1 ++ [CAction.connectCall]))) ∧
    ((e0.result.isSome && e1.result.isSome && e2.result.isNone) = true →
      connectWithRetry e0 e1 e2 =
        (none, cwrSeg e0 ++ cwrSeg e1 ++ (cwrPre e2 ++ [CAction.connectCall]))) ∧
    ((e0.result.isSome && e1.result.isSome && e2.result.isSome) = true →
      connectWithRetry e0 e1 e2 = (e2.result, cwrSeg e0 ++ cwrSeg e1 ++ cwrSeg e2)) := by
  refine ⟨?_, ?_, ?_, ?_, ?_⟩
  · revert e0 e1 e2
    decide
  · revert e0 e1 e2
    decide
  · revert e0 e1 e2
    decide
  · revert e0 e1 e2
    decide
  · revert e0 e1 e2
    decide

/-- C6 witness: first attempt fails with "websocket is already connected"
(while connected), second fails otherwise, third succeeds; the helper
returns success after three connect calls with the mandated disconnects and
sleeps in between. -/
theorem connectWithRetry_behavior_witness :
    connectWithRetry ⟨true, some ConnErr.alreadyConnected⟩ ⟨false, some ConnErr.otherErr⟩
        ⟨false, none⟩ =
      (none,
        [CAction.disconnectCall, CAction.sleepMs 500, CAction.connectCall,
         CAction.disconnectCall, CAction.sleepMs 1000, CAction.connectCall,
         CAction.sleepMs 500, CAction.connectCall]) := by
  have h := (connectWithRetry_behavior ⟨true, some ConnErr.alreadyConnected⟩
    ⟨false, some ConnErr.otherErr⟩ ⟨false, none⟩).2.2.2.1 (by decide)
  rw [h]
  decide

/-! ## Reconnect engine (internal/client/client.go) -/

/-- `ClientStatus` (internal/client/manager or client package). -/
inductive ClientStatus where
  | statusDisconnected
  | statusConnecting
  | statusConnected
  | statusLoggedIn
  | statusLoggedOut
  | statusError
deriving Repr, DecidableEq

/-- The mutable fields of `client.Client` that `Connect`/`Reconnect` touch
(internal/client/client.go). -/
structure ClientSt where
  status : ClientStatus
  reconnectAttempts : Nat
  lastReconnectTime : Int
  lastActivityTime : Int
deriving Repr, DecidableEq

/-- Oracle for one connect cycle: what `WhatsmeowClient.IsConnected()`
reports inside `Connect`, and whether `WhatsmeowClient.Connect()` succeeds. -/
structure TransportEnv where
  wsConnected : Bool
  connectOk : Bool
deriving Repr, DecidableEq

/-- `Client.Connect` (internal/client/client.go lines 31-58): returns
whether the call succeeded (Go `err == nil`) and the updated client.  When
the underlying websocket is already connected it returns success without
touching status or `reconnectAttempts`. -/
def clientConnect (c : ClientSt) (env : TransportEnv) (now : Int) : Bool × ClientSt :=
  let c := { c with lastActivityTime := now }
  if env.wsConnected then
    (true, c)
  else
    let c := { c with status := ClientStatus.statusConnecting }
    if env.connectOk then
      (true, { c with status := ClientStatus.statusConnected, reconnectAttempts := 0 })
    else
      (false, { c with status := ClientStatus.statusError })

/-- `Client.Reconnect` (internal/client/client.go lines 78-115): computes
the exponential backoff, sleeps out the remainder since the last reconnect,
stamps `lastReconnectTime`, increments `reconnectAttempts` and calls
`Connect`.  Returns the final client, the time at which `Connect` ran
(after any sleep) and the `Connect` outcome. -/
def clientReconnect (c : ClientSt) (env : TransportEnv) (now : Int) :
    ClientSt × Int × Bool :=
  let c := { c with lastActivityTime := now }
  let backoffSeconds : Int := min 30 ((2 : Int) ^ c.reconnectAttempts)
  let timeSinceLastReconnect := now - c.lastReconnectTime
  let now2 :=
    if timeSinceLastReconnect < backoffSeconds then
      now + (backoffSeconds - timeSinceLastReconnect)
    else now
  let c := { c with lastReconnectTime := now2,
                    reconnectAttempts := c.reconnectAttempts + 1 }
  let r := clientConnect c env now2
  (r.2, now2, r.1)

/-- C7 counterexample: a reconnect cycle (attempts = 0, last reconnect at 0)
run at time 100 on a transport that already reports connected: `Connect`
short-circuits and returns success, yet `reconnectAttempts` ends at 1, not
0 — refuting "a successful connect resets reconnectAttempts to 0". -/
theorem reconnect_reset_counterexample :
    (clientReconnect ⟨ClientStatus.statusDisconnected, 0, 0, 0⟩ ⟨true, true⟩ 100).2.2 = true ∧
    (clientReconnect ⟨ClientStatus.statusDisconnected, 0, 0, 0⟩
      ⟨true, true⟩ 100).1.reconnectAttempts = 1 := by
  constructor
  · decide
  · decide

/-- C7 (amended): each reconnect cycle computes
`backoff = min(30 s, 2^reconnectAttempts s)` and runs `connect` at
`max now (lastReconnectTime + backoff)` (sleeping out the remainder when the
time since the last reconnect is below the backoff), stamps that time as the
new `lastReconnectTime`, and increments `reconnectAttempts`; a connect that
actually dials and succeeds resets `reconnectAttempts` to 0, a failed dial
leaves the incremented count with status `Errored`, and a connect that
short-circuits because the websocket is already up returns success without
resetting the count. -/
theorem clientReconnect_behavior (c : ClientSt) (env : TransportEnv) (now : Int) :
    (clientReconnect c env now).2.1 =
      max now (c.lastReconnectTime + min 30 ((2 : Int) ^ c.reconnectAttempts)) ∧
    (clientReconnect c env now).1.lastReconnectTime = (clientReconnect c env now).2.1 ∧
    (env.wsConnected = false → env.connectOk = true →
      (clientReconnect c env now).1.reconnectAttempts = 0 ∧
      (clientReconnect c env now).2.2 = true ∧
      (clientReconnect c env now).1.status = ClientStatus.statusConnected) ∧
    (env.wsConnected = false → env.connectOk = false →
      (clientReconnect c env now).1.reconnectAttempts = c.reconnectAttempts + 1 ∧
      (clientReconnect c env now).2.2 = false ∧
      (clientReconnect c env now).1.status = ClientStatus.statusError) ∧
    (env.wsConnected = true →
      (clientReconnect c env now).2.2 = true ∧
      (clientReconnect c env now).1.reconnectAttempts = c.reconnectAttempts + 1) := by
  rcases env with ⟨ws, co⟩
  cases ws <;> cases co <;>
    simp [clientReconnect, clientConnect] <;>
    (generalize (2 : Int) ^ c.reconnectAttempts = p
     split <;> omega)

/-- C7 witness: attempts = 2, last reconnect at 50, cycle entered at 51 with
a real successful dial: backoff is 4 s, connect runs at 54 and the counter
resets to 0. -/
theorem clientReconnect_behavior_witness :
    (clientReconnect ⟨ClientStatus.statusDisconnected, 2, 50, 0⟩ ⟨false, true⟩ 51).2.1 = 54 ∧
    (clientReconnect ⟨ClientStatus.statusDisconnected, 2, 50, 0⟩
      ⟨false, true⟩ 51).1.reconnectAttempts = 0 := by
  have h := clientReconnect_behavior ⟨ClientStatus.statusDisconnected, 2, 50, 0⟩ ⟨false, true⟩ 51
  refine ⟨?_, (h.2.2.1 rfl rfl).1⟩
  rw [h.1]
  decide

/-! ## Text-send pipeline (messaging Service.sendMessageWithRetry) -/

/-- Outcome of one `sess.Client.SendMessage` upstream call: success, an
error whose text contains "websocket disconnected", or any other error. -/
inductive SendOutcome where
  | ack
  | wsDropped
  | otherSendErr
deriving Repr, DecidableEq, Fintype

/-- Oracle for one iteration of the `sendMessageWithRetry` loop.  The
result of the reconnect `Connect()` after a drop is only logged by the
source, so it does not appear here. -/
structure SendEnv where
  sessionFound : Bool
  isConnected : Bool
  connectOk : Bool
  sendResult : SendOutcome
  isLoggedIn : Bool
deriving Repr, DecidableEq, Fintype

/-- Observable actions of the send pipelines. -/
inductive MsgAction where
  | findSessionCall
  | rateWaitCall
  | connectCall
  | uploadCall
  | sendCall (recipient : String)
  | disconnectCall
  | sleepS (n : Nat)
deriving Repr, DecidableEq

/-- Result of `sendMessageWithRetry` (part of the messaging service). -/
inductive MsgResult where
  | sent
  | sessionNotFound
  | notLoggedIn
  | sendOtherFailure
  | exhaustedConnect
  | exhaustedSend
deriving Repr, DecidableEq, Fintype

/-- Result of one loop iteration: a returned result, or a `continue` whose
pending `lastErr` is a connect failure or a websocket-drop send failure. -/
inductive IterOut where
  | done (r : MsgResult)
  | contConnectErr
  | contDropErr
deriving Repr, DecidableEq

/-- One iteration of the `sendMessageWithRetry` retry loop (messaging
service): look up the session, connect when disconnected (a failed connect
sleeps 1 s and continues), send, and on an error containing
"websocket disconnected" either fail with the not-logged-in error (no
reconnect) or disconnect, sleep 1 s, reconnect and continue; any other
send error returns immediately. -/
def sendMessageIter (phone : String) (env : SendEnv) : IterOut × List MsgAction :=
  if env.sessionFound = false then
    (IterOut.done MsgResult.sessionNotFound, [MsgAction.findSessionCall])
  else if env.isConnected = false ∧ env.connectOk = false then
    (IterOut.contConnectErr,
      [MsgAction.findSessionCall, MsgAction.connectCall, MsgAction.sleepS 1])
  else
    let pre := [MsgAction.findSessionCall] ++
      (if env.isConnected then [] else [MsgAction.connectCall])
    match env.sendResult with
    | SendOutcome.ack => (IterOut.done MsgResult.sent, pre ++ [MsgAction.sendCall phone])
    | SendOutcome.otherSendErr =>
      (IterOut.done MsgResult.sendOtherFailure, pre ++ [MsgAction.sendCall phone])
    | SendOutcome.wsDropped =>
      if env.isLoggedIn = false then
        (IterOut.done MsgResult.notLoggedIn, pre ++ [MsgAction.sendCall phone])
      else
        (IterOut.contDropErr,
          pre ++ [MsgAction.sendCall phone, MsgAction.disconnectCall,
            MsgAction.sleepS 1, MsgAction.connectCall])

/-- The result reported when the loop exhausts `maxRetries` with the given
pending `lastErr` kind. -/
def iterLastErr : IterOut → MsgResult
  | IterOut.done r => r
  | IterOut.contConnectErr => MsgResult.exhaustedConnect
  | IterOut.contDropErr => MsgResult.exhaustedSend

/-- `Service.sendMessageWithRetry` (messaging service): the
`for attempt := 0; attempt < maxRetries; attempt++` loop with
`maxRetries = 3`, unrolled over the three per-iteration oracles; after the
third `continue` the pending `lastErr` is returned. -/
def sendMessageWithRetry (phone : String) (e0 e1 e2 : SendEnv) :
    MsgResult × List MsgAction :=
  match sendMessageIter phone e0 with
  | (IterOut.done r, tr0) => (r, tr0)
  | (_, tr0) =>
    match sendMessageIter phone e1 with
    | (IterOut.done r, tr1) => (r, tr0 ++ tr1)
    | (_, tr1) =>
      match sendMessageIter phone e2 with
      | (IterOut.done r, tr2) => (r, tr0 ++ tr1 ++ tr2)
      | (k2, tr2) => (iterLastErr k2, tr0 ++ tr1 ++ tr2)

/-- Number of upstream `SendMessage` calls in a trace. -/
def countSends (l : List MsgAction) : Nat :=
  l.countP fun a => match a with
    | MsgAction.sendCall _ => true
    | _ => false

theorem countSends_iter (phone : String) (env : SendEnv) :
    countSends (sendMessageIter phone env).2 ≤ 1 := by
  rcases env with ⟨sf, ic, co, sr, il⟩
  cases sf <;> cases ic <;> cases co <;> cases sr <;> cases il <;>
    simp [sendMessageIter, countSends]

theorem countSends_append (l1 l2 : List MsgAction) :
    countSends (l1 ++ l2) = countSends l1 + countSends l2 := by
  simp [countSends, List.countP_append]

/-! ## Media send pipeline (media Service.SendMedia) -/

/-- Digit test: the Go loop rejects a rune with `c < '0' || c > '9'`. -/
def isAsciiDigit (c : Char) : Bool :=
  decide ('0' ≤ c) && decide (c ≤ '9')

/-- The phone-number shape check of `Service.SendMedia` (media service
lines 249-269): all digits, or a leading plus followed by at least one
digit.  The empty case is unreachable behind the emptiness check (Go would
index byte 0). -/
def phoneDigitsValid (phone : String) : Bool :=
  match phone.data with
  | [] => true
  | c :: rest =>
    if c = '+' then
      match rest with
      | [] => false
      | _ => rest.all isAsciiDigit
    else
      (c :: rest).all isAsciiDigit

/-- Errors of `Service.SendMedia` (media service lines 241-497). -/
inductive MediaErr where
  | emptyPhone
  | invalidPhone
  | sessionNotFound
  | connectFailed
  | fetchFailed
  | invalidFormat
  | noMediaGiven
  | invalidMediaType
  | uploadFailed
  | notLoggedIn
  | reconnectFailed
  | sendFailed
  | sendFailedAfterReconnect
deriving Repr, DecidableEq

/-- Oracle for the upstream interactions of one `SendMedia` call. -/
structure MediaEnv where
  sessionFound : Bool
  isConnected : Bool
  connectOk : Bool
  mediaOk : Bool
  uploadOk : Bool
  sendResult : SendOutcome
  isLoggedIn : Bool
  reconnectOk : Bool
  retrySendOk : Bool
deriving Repr, DecidableEq

/-- The upstream send and websocket-drop retry tail of `Service.SendMedia`
(media service lines 455-491): one send under a 60 s deadline; on an error
containing "websocket disconnected", fail with a not-logged-in error (no
reconnect) when the session is not logged in, otherwise disconnect, sleep
1 s, reconnect and resend exactly once. -/
def sendMediaSend (phone : String) (env : MediaEnv) : Option MediaErr × List MsgAction :=
  match env.sendResult with
  | SendOutcome.ack => (none, [MsgAction.sendCall phone])
  | SendOutcome.otherSendErr => (some MediaErr.sendFailed, [MsgAction.sendCall phone])
  | SendOutcome.wsDropped =>
    if env.isLoggedIn = false then
      (some MediaErr.notLoggedIn, [MsgAction.sendCall phone])
    else
      let tr2 := [MsgAction.sendCall phone, MsgAction.disconnectCall, MsgAction.sleepS 1]
      if env.reconnectOk = false then
        (some MediaErr.reconnectFailed, tr2 ++ [MsgAction.connectCall])
      else if env.retrySendOk then
        (none, tr2 ++ [MsgAction.connectCall, MsgAction.sendCall phone])
      else
        (some MediaErr.sendFailedAfterReconnect,
          tr2 ++ [MsgAction.connectCall, MsgAction.sendCall phone])

/-- The pre-send part of `Service.SendMedia` (media service lines 241-454):
recipient validation, session gate, 6 s rate-limiter wait, connection
ensure, media acquisition (URL fetch or base64 decode), media-type switch,
upload, and thumbnail (video only; best-effort, cannot fail the send, so
not modelled).  Returns `none` with the preparation trace when the message
is ready to send. -/
def sendMediaPrep (phone mediaType mediaData mediaURL : String) (env : MediaEnv) :
    Option MediaErr × List MsgAction :=
  if phone.trim = "" then (some MediaErr.emptyPhone, [])
  else if phoneDigitsValid phone = false then (some MediaErr.invalidPhone, [])
  else if env.sessionFound = false then
    (some MediaErr.sessionNotFound, [MsgAction.findSessionCall])
  else
    let tr := [MsgAction.findSessionCall, MsgAction.rateWaitCall]
    if env.isConnected = false ∧ env.connectOk = false then
      (some MediaErr.connectFailed, tr ++ [MsgAction.connectCall])
    else
      let tr := tr ++ (if env.isConnected then [] else [MsgAction.connectCall])
      if mediaURL ≠ "" ∧ env.mediaOk = false then (some MediaErr.fetchFailed, tr)
      else if mediaURL = "" ∧ mediaData ≠ "" ∧ env.mediaOk = false then
        (some MediaErr.invalidFormat, tr)
      else if mediaURL = "" ∧ mediaData = "" then (some MediaErr.noMediaGiven, tr)
      else if mediaType ≠ "image" ∧ mediaType ≠ "video" ∧ mediaType ≠ "file" then
        (some MediaErr.invalidMediaType, tr)
      else if env.uploadOk = false then
        (some MediaErr.uploadFailed, tr ++ [MsgAction.uploadCall])
      else
        (none, tr ++ [MsgAction.uploadCall])

/-- `Service.SendMedia` (media service lines 241-497): the preparation
phase followed, when it succeeds, by the send-with-retry tail. -/
def sendMedia (phone mediaType mediaData mediaURL : String) (env : MediaEnv) :
    Option MediaErr × List MsgAction :=
  match sendMediaPrep phone mediaType mediaData mediaURL env with
  | (some e, tr) => (some e, tr)
  | (none, tr) =>
    let r := sendMediaSend phone env
    (r.1, tr ++ r.2)

theorem countSends_sendMediaPrep (phone mt md mu : String) (env : MediaEnv) :
    countSends (sendMediaPrep phone mt md mu env).2 = 0 := by
  rcases env with ⟨sf, ic, co, mo, uo, sr, il, ro, rso⟩
  unfold sendMediaPrep
  split_ifs <;> rfl

theorem countSends_sendMediaSend (phone : String) (env : MediaEnv) :
    countSends (sendMediaSend phone env).2 ≤ 2 := by
  rcases env with ⟨sf, ic, co, mo, uo, sr, il, ro, rso⟩
  cases sr <;> cases il <;> cases ro <;> cases rso <;>
    simp [sendMediaSend, countSends]

/-- Whether an iteration result continues the retry loop. -/
def iterCont : IterOut → Bool
  | IterOut.done _ => false
  | IterOut.contConnectErr => true
  | IterOut.contDropErr => true

theorem sendMessageIter_drop (phone : String) (env : SendEnv)
    (h1 : env.sessionFound = true) (h2 : (env.isConnected || env.connectOk) = true)
    (h3 : env.sendResult = SendOutcome.wsDropped) :
    (env.isLoggedIn = false →
      sendMessageIter phone env =
        (IterOut.done MsgResult.notLoggedIn,
         [MsgAction.findSessionCall] ++
           (if env.isConnected then [] else [MsgAction.connectCall]) ++
           [MsgAction.sendCall phone])) ∧
    (env.isLoggedIn = true →
      sendMessageIter phone env =
        (IterOut.contDropErr,
         [MsgAction.findSessionCall] ++
           (if env.isConnected then [] else [MsgAction.connectCall]) ++
           [MsgAction.sendCall phone, MsgAction.disconnectCall, MsgAction.sleepS 1,
            MsgAction.connectCall])) := by
  rcases env with ⟨sf, ic, co, sr, il⟩
  simp only at h1 h2 h3
  subst h1 h3
  cases ic <;> cases co <;> cases il <;> simp_all [sendMessageIter]

/-- C3: for the text pipeline, at most 3 upstream send attempts are made in
total, and for a websocket-drop on any of the three attempts: when the
session is not logged in, the call fails with the not-logged-in error and
the trace ends at that send (no disconnect/reconnect follows); when it is
logged in, the send is immediately followed by disconnect, a 1 s sleep and
a reconnect before the retry (after the third drop the loop exits with the
pending send failure, the reconnect cycle still performed).  The media
pipeline makes at most 2 send attempts (within the claimed bound of 3) and
behaves the same on a drop of its single first send: not-logged-in failure
with no reconnect when not logged in, otherwise disconnect, 1 s sleep,
reconnect and one retry. -/
theorem send_drop_retry (phone : String) (e0 e1 e2 : SendEnv) (menv : MediaEnv)
    (mt md mu : String) :
    countSends (sendMessageWithRetry phone e0 e1 e2).2 ≤ 3 ∧
    (e0.sessionFound = true → (e0.isConnected || e0.connectOk) = true →
      e0.sendResult = SendOutcome.wsDropped → e0.isLoggedIn = false →
      sendMessageWithRetry phone e0 e1 e2 =
        (MsgResult.notLoggedIn,
          [MsgAction.findSessionCall] ++
          (if e0.isConnected then [] else [MsgAction.connectCall]) ++
          [MsgAction.sendCall phone])) ∧
    (e0.sessionFound = true → (e0.isConnected || e0.connectOk) = true →
      e0.sendResult = SendOutcome.wsDropped → e0.isLoggedIn = true →
      (sendMessageWithRetry phone e0 e1 e2).2.take ((if e0.isConnected then 0 else 1) + 5) =
        [MsgAction.findSessionCall] ++
        (if e0.isConnected then [] else [MsgAction.connectCall]) ++
        [MsgAction.sendCall phone, MsgAction.disconnectCall, MsgAction.sleepS 1,
         MsgAction.connectCall]) ∧
    countSends (sendMedia phone mt md mu menv).2 ≤ 2 ∧
    (iterCont (sendMessageIter phone e0).1 = true →
      e1.sessionFound = true → (e1.isConnected || e1.connectOk) = true →
      e1.sendResult = SendOutcome.wsDropped → e1.isLoggedIn = false →
      sendMessageWithRetry phone e0 e1 e2 =
        (MsgResult.notLoggedIn,
          (sendMessageIter phone e0).2 ++
          ([MsgAction.findSessionCall] ++
            (if e1.isConnected then [] else [MsgAction.connectCall]) ++
            [MsgAction.sendCall phone]))) ∧
    (iterCont (sendMessageIter phone e0).1 = true →
      e1.sessionFound = true → (e1.isConnected || e1.connectOk) = true →
      e1.sendResult = SendOutcome.wsDropped → e1.isLoggedIn = true →
      (sendMessageWithRetry phone e0 e1 e2).2.take
          ((sendMessageIter phone e0).2.length + ((if e1.isConnected then 0 else 1) + 5)) =
        (sendMessageIter phone e0).2 ++
        ([MsgAction.findSessionCall] ++
          (if e1.isConnected then [] else [MsgAction.connectCall]) ++
          [MsgAction.sendCall phone, MsgAction.disconnectCall, MsgAction.sleepS 1,
           MsgAction.connectCall])) ∧
    (iterCont (sendMessageIter phone e0).1 = true →
      iterCont (sendMessageIter phone e1).1 = true →
      e2.sessionFound = true → (e2.isConnected || e2.connectOk) = true →
      e2.sendResult = SendOutcome.wsDropped → e2.isLoggedIn = false →
      sendMessageWithRetry phone e0 e1 e2 =
        (MsgResult.notLoggedIn,
          (sendMessageIter phone e0).2 ++ (sendMessageIter phone e1).2 ++
          ([MsgAction.findSessionCall] ++
            (if e2.isConnected then [] else [MsgAction.connectCall]) ++
            [MsgAction.sendCall phone]))) ∧
    (iterCont (sendMessageIter phone e0).1 = true →
      iterCont (sendMessageIter phone e1).1 = true →
      e2.sessionFound = true → (e2.isConnected || e2.connectOk) = true →
      e2.sendResult = SendOutcome.wsDropped → e2.isLoggedIn = true →
      sendMessageWithRetry phone e0 e1 e2 =
        (MsgResult.exhaustedSend,
          (sendMessageIter phone e0).2 ++ (sendMessageIter phone e1).2 ++
          ([MsgAction.findSessionCall] ++
            (if e2.isConnected then [] else [MsgAction.connectCall]) ++
            [MsgAction.sendCall phone, MsgAction.disconnectCall, MsgAction.sleepS 1,
             MsgAction.connectCall]))) ∧
    ((sendMediaPrep phone mt md mu menv).1 = none →
      menv.sendResult = SendOutcome.wsDropped → menv.isLoggedIn = false →
      sendMedia phone mt md mu menv =
        (some MediaErr.notLoggedIn,
          (sendMediaPrep phone mt md mu menv).2 ++ [MsgAction.sendCall phone])) ∧
    ((sendMediaPrep phone mt md mu menv).1 = none →
      menv.sendResult = SendOutcome.wsDropped → menv.isLoggedIn = true →
      menv.reconnectOk = false →
      sendMedia phone mt md mu menv =
        (some MediaErr.reconnectFailed,
          (sendMediaPrep phone mt md mu menv).2 ++
          [MsgAction.sendCall phone, MsgAction.disconnectCall, MsgAction.sleepS 1,
           MsgAction.connectCall])) ∧
    ((sendMediaPrep phone mt md mu menv).1 = none →
      menv.sendResult = SendOutcome.wsDropped → menv.isLoggedIn = true →
      menv.reconnectOk = true →
      (sendMedia phone mt md mu menv).2 =
        (sendMediaPrep phone mt md mu menv).2 ++
        [MsgAction.sendCall phone, MsgAction.disconnectCall, MsgAction.sleepS 1,
         MsgAction.connectCall, MsgAction.sendCall phone]) := by
  refine ⟨?_, ?_, ?_, ?_, ?_, ?_, ?_, ?_, ?_, ?_, ?_⟩
  · have h0 := countSends_iter phone e0
    have h1 := countSends_iter phone e1
    have h2 := countSends_iter phone e2
    unfold sendMessageWithRetry
    rcases hh0 : sendMessageIter phone e0 with ⟨k0, tr0⟩
    rcases hh1 : sendMessageIter phone e1 with ⟨k1, tr1⟩
    rcases hh2 : sendMessageIter phone e2 with ⟨k2, tr2⟩
    rw [hh0] at h0
    rw [hh1] at h1
    rw [hh2] at h2
    simp only at h0 h1 h2
    cases k0 <;> cases k1 <;> cases k2 <;>
      simp only [countSends_append] <;> omega
  · rcases e0 with ⟨sf, ic, co, sr, il⟩
    intro h1 h2 h3 h4
    simp only at h1 h2 h3 h4
    subst h1 h3 h4
    cases ic <;> cases co <;>
      simp_all [sendMessageWithRetry, sendMessageIter]
  · rcases e0 with ⟨sf, ic, co, sr, il⟩
    intro h1 h2 h3 h4
    simp only at h1 h2 h3 h4
    subst h1 h3 h4
    unfold sendMessageWithRetry
    rcases hh1 : sendMessageIter phone e1 with ⟨k1, tr1⟩
    rcases hh2 : sendMessageIter phone e2 with ⟨k2, tr2⟩
    cases ic <;> cases co
    · exact absurd h2 (by decide)
    · have hstep : sendMessageIter phone ⟨true, false, true, SendOutcome.wsDropped, true⟩ =
          (IterOut.contDropErr,
            [MsgAction.findSessionCall, MsgAction.connectCall, MsgAction.sendCall phone,
             MsgAction.disconnectCall, MsgAction.sleepS 1, MsgAction.connectCall]) := rfl
      rw [hstep]
      cases k1 <;> cases k2 <;> rfl
    · have hstep : sendMessageIter phone ⟨true, true, false, SendOutcome.wsDropped, true⟩ =
          (IterOut.contDropErr,
            [MsgAction.findSessionCall, MsgAction.sendCall phone,
             MsgAction.disconnectCall, MsgAction.sleepS 1, MsgAction.connectCall]) := rfl
      rw [hstep]
      cases k1 <;> cases k2 <;> rfl
    · have hstep : sendMessageIter phone ⟨true, true, true, SendOutcome.wsDropped, true⟩ =
          (IterOut.contDropErr,
            [MsgAction.findSessionCall, MsgAction.sendCall phone,
             MsgAction.disconnectCall, MsgAction.sleepS 1, MsgAction.connectCall]) := rfl
      rw [hstep]
      cases k1 <;> cases k2 <;> rfl
  · have hp := countSends_sendMediaPrep phone mt md mu menv
    have hs := countSends_sendMediaSend phone menv
    unfold sendMedia
    rcases hpr : sendMediaPrep phone mt md mu menv with ⟨e, tr⟩
    rw [hpr] at hp
    simp only at hp
    cases e <;> simp [countSends_append, hp, hs]

  · intro hc0 h1 h2 h3 h4
    have hd := (sendMessageIter_drop phone e1 h1 h2 h3).1 h4
    unfold sendMessageWithRetry
    rcases hh0 : sendMessageIter phone e0 with ⟨k0, tr0⟩
    rw [hh0] at hc0
    simp only at hc0
    rw [hd]
    cases k0
    · simp [iterCont] at hc0
    · rfl
    · rfl
  · intro hc0 h1 h2 h3 h4
    have hd := (sendMessageIter_drop phone e1 h1 h2 h3).2 h4
    unfold sendMessageWithRetry
    rcases hh0 : sendMessageIter phone e0 with ⟨k0, tr0⟩
    rw [hh0] at hc0
    simp only at hc0
    rw [hd]
    rcases hh2 : sendMessageIter phone e2 with ⟨k2, tr2⟩
    cases k0
    · simp [iterCont] at hc0
    all_goals
      cases k2 <;>
        (dsimp only
         rw [List.append_assoc, List.take_append]
         rcases hic : e1.isConnected <;> simp [hic])
  · intro hc0 hc1 h1 h2 h3 h4
    have hd := (sendMessageIter_drop phone e2 h1 h2 h3).1 h4
    unfold sendMessageWithRetry
    rcases hh0 : sendMessageIter phone e0 with ⟨k0, tr0⟩
    rcases hh1 : sendMessageIter phone e1 with ⟨k1, tr1⟩
    rw [hh0] at hc0
    rw [hh1] at hc1
    simp only at hc0 hc1
    rw [hd]
    cases k0
    · simp [iterCont] at hc0
    all_goals cases k1
    all_goals simp only [iterCont] at hc1
    all_goals first
    | exact absurd hc1 Bool.false_ne_true
    | rfl
  · intro hc0 hc1 h1 h2 h3 h4
    have hd := (sendMessageIter_drop phone e2 h1 h2 h3).2 h4
    unfold sendMessageWithRetry
    rcases hh0 : sendMessageIter phone e0 with ⟨k0, tr0⟩
    rcases hh1 : sendMessageIter phone e1 with ⟨k1, tr1⟩
    rw [hh0] at hc0
    rw [hh1] at hc1
    simp only at hc0 hc1
    rw [hd]
    cases k0
    · simp [iterCont] at hc0
    all_goals cases k1
    all_goals simp only [iterCont] at hc1
    all_goals first
    | exact absurd hc1 Bool.false_ne_true
    | rfl
  · intro hp h1 h2
    unfold sendMedia
    rcases hpr : sendMediaPrep phone mt md mu menv with ⟨e, tr⟩
    rw [hpr] at hp
    simp only at hp
    subst hp
    simp [sendMediaSend, h1, h2]
  · intro hp h1 h2 h3
    unfold sendMedia
    rcases hpr : sendMediaPrep phone mt md mu menv with ⟨e, tr⟩
    rw [hpr] at hp
    simp only at hp
    subst hp
    simp [sendMediaSend, h1, h2, h3]
  · intro hp h1 h2 h3
    unfold sendMedia
    rcases hpr : sendMediaPrep phone mt md mu menv with ⟨e, tr⟩
    rw [hpr] at hp
    simp only at hp
    subst hp
    rcases hrs : menv.retrySendOk <;> simp [sendMediaSend, h1, h2, h3, hrs]

theorem trim_digits123 : "123".trim = "123" := by
  have h1 : Substring.takeWhileAux "123" "123".endPos Char.isWhitespace ⟨0⟩ = ⟨0⟩ := by
    unfold Substring.takeWhileAux
    decide
  have h2 : Substring.takeRightWhileAux "123" ⟨0⟩ Char.isWhitespace "123".endPos =
      "123".endPos := by
    unfold Substring.takeRightWhileAux
    decide
  show Substring.toString
      ⟨"123", Substring.takeWhileAux "123" "123".endPos Char.isWhitespace ⟨0⟩,
        Substring.takeRightWhileAux "123"
          (Substring.takeWhileAux "123" "123".endPos Char.isWhitespace ⟨0⟩)
          Char.isWhitespace "123".endPos⟩ = "123"
  rw [h1, h2]
  decide

theorem prep_digits123 :
    sendMediaPrep "123" "image" "" "u"
      ⟨true, true, true, true, true, SendOutcome.wsDropped, false, true, true⟩ =
    (none, [MsgAction.findSessionCall, MsgAction.rateWaitCall, MsgAction.uploadCall]) := by
  unfold sendMediaPrep
  rw [trim_digits123]
  decide

/-- C3 witness: a drop on the first attempt of a logged-in, connected
session is followed by exactly disconnect, 1 s sleep and reconnect, and the
whole run makes at most 3 sends; a drop on the second attempt of a session
that is no longer logged in ends the run with the not-logged-in error and
no further actions after that send; a media send whose single upstream send
drops while not logged in fails with the not-logged-in error with nothing
after the send. -/
theorem send_drop_retry_witness :
    countSends (sendMessageWithRetry "123" ⟨true, true, true, SendOutcome.wsDropped, true⟩
      ⟨true, true, true, SendOutcome.ack, true⟩ ⟨true, true, true, SendOutcome.ack, true⟩).2 ≤ 3 ∧
    (sendMessageWithRetry "123" ⟨true, true, true, SendOutcome.wsDropped, true⟩
      ⟨true, true, true, SendOutcome.ack, true⟩
      ⟨true, true, true, SendOutcome.ack, true⟩).2.take 5 =
      [MsgAction.findSessionCall, MsgAction.sendCall "123", MsgAction.disconnectCall,
       MsgAction.sleepS 1, MsgAction.connectCall] ∧
    sendMessageWithRetry "123" ⟨true, true, true, SendOutcome.wsDropped, true⟩
        ⟨true, true, true, SendOutcome.wsDropped, false⟩
        ⟨true, true, true, SendOutcome.ack, true⟩ =
      (MsgResult.notLoggedIn,
        [MsgAction.findSessionCall, MsgAction.sendCall "123", MsgAction.disconnectCall,
         MsgAction.sleepS 1, MsgAction.connectCall, MsgAction.findSessionCall,
         MsgAction.sendCall "123"]) ∧
    sendMedia "123" "image" "" "u"
        ⟨true, true, true, true, true, SendOutcome.wsDropped, false, true, true⟩ =
      (some MediaErr.notLoggedIn,
        [MsgAction.findSessionCall, MsgAction.rateWaitCall, MsgAction.uploadCall,
         MsgAction.sendCall "123"]) := by
  have h := send_drop_retry "123" ⟨true, true, true, SendOutcome.wsDropped, true⟩
    ⟨true, true, true, SendOutcome.ack, true⟩ ⟨true, true, true, SendOutcome.ack, true⟩
    ⟨true, true, true, true, true, SendOutcome.ack, true, true, true⟩ "image" "" "u"
  have h2 := send_drop_retry "123" ⟨true, true, true, SendOutcome.wsDropped, true⟩
    ⟨true, true, true, SendOutcome.wsDropped, false⟩ ⟨true, true, true, SendOutcome.ack, true⟩
    ⟨true, true, true, true, true, SendOutcome.wsDropped, false, true, true⟩ "image" "" "u"
  refine ⟨h.1, h.2.2.1 rfl rfl rfl rfl, ?_, ?_⟩
  · exact (h2.2.2.2.2.1 rfl rfl rfl rfl rfl).trans rfl
  · have h9 := h2.2.2.2.2.2.2.2.2.1 (by rw [prep_digits123]) rfl rfl
    rw [h9, prep_digits123]
    rfl

/-- C5 counterexample: the text-send path performs no recipient validation:
a send to recipient "not-a-number" (which fails the digits test) with a
healthy session issues the upstream Transport call and succeeds, instead of
failing with InvalidRecipient with no Transport call issued. -/
theorem text_send_no_validation_counterexample :
    phoneDigitsValid "not-a-number" = false ∧
    sendMessageWithRetry "not-a-number" ⟨true, true, true, SendOutcome.ack, true⟩
        ⟨true, true, true, SendOutcome.ack, true⟩ ⟨true, true, true, SendOutcome.ack, true⟩ =
      (MsgResult.sent,
        [MsgAction.findSessionCall, MsgAction.sendCall "not-a-number"]) ∧
    countSends (sendMessageWithRetry "not-a-number"
      ⟨true, true, true, SendOutcome.ack, true⟩ ⟨true, true, true, SendOutcome.ack, true⟩
      ⟨true, true, true, SendOutcome.ack, true⟩).2 = 1 := by
  refine ⟨by decide, rfl, rfl⟩

/-- C5 (amended): only the media send path validates the recipient: an
empty-after-trimming or non-digits recipient fails with the empty/invalid
phone error before the session lookup, with no Transport call issued (the
trace is empty); the text path forwards any recipient unvalidated. -/
theorem sendMedia_invalid_recipient (phone mt md mu : String) (env : MediaEnv)
    (h : phone.trim = "" ∨ phoneDigitsValid phone = false) :
    ((sendMedia phone mt md mu env).1 = some MediaErr.emptyPhone ∨
     (sendMedia phone mt md mu env).1 = some MediaErr.invalidPhone) ∧
    (sendMedia phone mt md mu env).2 = [] := by
  by_cases h1 : phone.trim = ""
  · have hprep : sendMediaPrep phone mt md mu env = (some MediaErr.emptyPhone, []) := by
      unfold sendMediaPrep
      rw [if_pos h1]
    simp [sendMedia, hprep]
  · rcases h with h | h
    · exact absurd h h1
    · have hprep : sendMediaPrep phone mt md mu env = (some MediaErr.invalidPhone, []) := by
        unfold sendMediaPrep
        rw [if_neg h1, if_pos h]
      simp [sendMedia, hprep]

/-- C5 witness: the media path rejects "not-a-number" with the
invalid-phone error and an empty action trace. -/
theorem sendMedia_invalid_recipient_witness :
    ("not-a-number".trim = "" ∨ phoneDigitsValid "not-a-number" = false) ∧
    ((sendMedia "not-a-number" "image" "" ""
        ⟨true, true, true, true, true, SendOutcome.ack, true, true, true⟩).1 =
        some MediaErr.emptyPhone ∨
     (sendMedia "not-a-number" "image" "" ""
        ⟨true, true, true, true, true, SendOutcome.ack, true, true, true⟩).1 =
        some MediaErr.invalidPhone) ∧
    (sendMedia "not-a-number" "image" "" ""
        ⟨true, true, true, true, true, SendOutcome.ack, true, true, true⟩).2 = [] := by
  have h := sendMedia_invalid_recipient "not-a-number" "image" "" ""
    ⟨true, true, true, true, true, SendOutcome.ack, true, true, true⟩ (Or.inr (by decide))
  exact ⟨Or.inr (by decide), h.1, h.2⟩

/-! ## QR linking (auth Service.GenerateQRCode) -/

/-- Observable actions of `GenerateQRCode`. -/
inductive QRAction where
  | disconnectCall
  | sleepMs (n : Nat)
  | resetLoggedIn
  | getQRChannelCall
  | connectCall
deriving Repr, DecidableEq

/-- What the QR channel wait observes: a non-empty code, an empty code, or
the 30 s per-code timeout. -/
inductive QROutcome where
  | code
  | emptyCode
  | timedOut
deriving Repr, DecidableEq, Fintype

/-- Results of `GenerateQRCode`. -/
inductive QRResult where
  | sessionNotFound
  | alreadyLoggedIn
  | connectFailed
  | qrBase64
  | emptyQRErr
  | qrTimeout
deriving Repr, DecidableEq, Fintype

/-- Oracle for one `GenerateQRCode` call: the looked-up session flags and
the transport interactions of the QR goroutine. -/
structure QREnv where
  sessionFound : Bool
  isLoggedIn : Bool
  isConnected : Bool
  connectResult : Option ConnErr
  retryConnectOk : Bool
  qrOutcome : QROutcome
deriving Repr, DecidableEq, Fintype

/-- The wait on the QR channel (auth service lines 103-139). -/
def qrWait (env : QREnv) (tr : List QRAction) : QRResult × List QRAction :=
  match env.qrOutcome with
  | QROutcome.code => (QRResult.qrBase64, tr)
  | QROutcome.emptyCode => (QRResult.emptyQRErr, tr)
  | QROutcome.timedOut => (QRResult.qrTimeout, tr)

/-- `Service.GenerateQRCode` (auth service lines 31-151): session lookup,
the already-logged-in-and-connected precondition, disconnect + 500 ms
settle when connected, login-state reset, QR-channel subscription strictly
before `Connect` (with one disconnect + 1 s + retry on the
"websocket is already connected" error), then the QR wait. -/
def generateQRCode (env : QREnv) : QRResult × List QRAction :=
  if env.sessionFound = false then (QRResult.sessionNotFound, [])
  else if env.isLoggedIn && env.isConnected then (QRResult.alreadyLoggedIn, [])
  else
    let pre := if env.isConnected then [QRAction.disconnectCall, QRAction.sleepMs 500] else []
    let tr := pre ++ [QRAction.resetLoggedIn, QRAction.getQRChannelCall, QRAction.connectCall]
    match env.connectResult with
    | some ConnErr.otherErr => (QRResult.connectFailed, tr)
    | some ConnErr.alreadyConnected =>
      let tr := tr ++ [QRAction.disconnectCall, QRAction.sleepMs 1000, QRAction.connectCall]
      if env.retryConnectOk = false then (QRResult.connectFailed, tr)
      else qrWait env tr
    | none => qrWait env tr

set_option maxRecDepth 8192 in
/-- C4: when the session is logged in and the transport reports connected,
`GenerateQRCode` fails with the already-logged-in error and performs no
action at all — in particular no disconnect, so the socket is undisturbed;
only when this precondition fails does it disconnect (if connected), reset
the login state, and subscribe to the QR channel strictly before calling
connect. -/
theorem generateQRCode_precondition (env : QREnv) :
    ((env.sessionFound && env.isLoggedIn && env.isConnected) = true →
      generateQRCode env = (QRResult.alreadyLoggedIn, [])) ∧
    ((env.sessionFound && !(env.isLoggedIn && env.isConnected)) = true →
      (generateQRCode env).2.take ((if env.isConnected then 2 else 0) + 3) =
        (if env.isConnected then [QRAction.disconnectCall, QRAction.sleepMs 500] else []) ++
        [QRAction.resetLoggedIn, QRAction.getQRChannelCall, QRAction.connectCall]) := by
  refine ⟨?_, ?_⟩
  · revert env
    decide
  · revert env
    decide

/-- C4 witness: a logged-in, connected session gets the already-logged-in
error with an empty action trace; a logged-in but disconnected session
proceeds into the QR sequence with the subscription before the connect. -/
theorem generateQRCode_precondition_witness :
    generateQRCode ⟨true, true, true, none, true, QROutcome.code⟩ =
      (QRResult.alreadyLoggedIn, []) ∧
    (generateQRCode ⟨true, true, false, none, true, QROutcome.code⟩).2.take 3 =
      [QRAction.resetLoggedIn, QRAction.getQRChannelCall, QRAction.connectCall] :=
  ⟨(generateQRCode_precondition ⟨true, true, true, none, true, QROutcome.code⟩).1 (by decide),
   (generateQRCode_precondition ⟨true, true, false, none, true, QROutcome.code⟩).2 (by decide)⟩

/-! ## Session registry (session Service.FindSessionByUser + ClientManager)

The per-user `sessionRestorationMutex` serializes `FindSessionByUser` calls
for the same user, so two concurrent calls are modelled as two sequential
state transitions.  Go pointer identities of heap allocations are modelled
by a `nextId` counter: every `&app.Session{...}`, every
`whatsmeow.NewClient` and every `sqlstore.New` container takes a fresh id. -/

/-- A legacy `app.Session` value as returned by the session service:
`wrapperId` is the allocation identity of the `&app.Session{...}` struct,
`clientId`/`containerId` those of the owned whatsmeow client and sqlstore
container. -/
structure SessionWrapper where
  wrapperId : Nat
  clientId : Nat
  containerId : Nat
  user : String
  isLoggedIn : Bool
deriving Repr, DecidableEq

/-- An entry of `ClientManager.clients`. -/
structure CMClient where
  clientId : Nat
  containerId : Nat
  loggedIn : Bool
deriving Repr, DecidableEq

/-- The registry state: the `ClientManager.clients` map, the legacy
`App.Sessions` map, and the allocation counter. -/
structure RegState where
  cmClients : List (String × CMClient)
  sessions : List (String × SessionWrapper)
  nextId : Nat
deriving Repr, DecidableEq

/-- Observable store/registry events of `FindSessionByUser`. -/
inductive RegEvent where
  | openStoreCall (user : String)
  | addClientCall (user : String)
  | connectCall (user : String)
  | closeContainerCall (cid : Nat)
deriving Repr, DecidableEq

/-- Oracle for one restore: whether opening the store and reading the
device succeed, whether the device is already registered (linked), and
whether the startup connect succeeds. -/
structure RestoreEnv where
  restoreOk : Bool
  deviceRegistered : Bool
  connectOk : Bool
deriving Repr, DecidableEq

/-- `Service.FindSessionByUser` (session service lines 734-800, the
`ClientManager`-aware revision), serialized by the per-user restoration
mutex.  A `ClientManager` hit wraps the managed client in a freshly
allocated legacy `app.Session`; a `Sessions`-map hit returns the stored
wrapper; otherwise `RestoreSession` opens the store, registers a new client
in the `ClientManager`, connects when the device is registered, re-checks
the `Sessions` map and publishes the new wrapper. -/
def findSessionByUser (st : RegState) (user : String) (env : RestoreEnv) :
    Option SessionWrapper × RegState × List RegEvent :=
  match alFind st.cmClients user with
  | some cm =>
    (some ⟨st.nextId, cm.clientId, cm.containerId, user, cm.loggedIn⟩,
     { st with nextId := st.nextId + 1 }, [])
  | none =>
    match alFind st.sessions user with
    | some w => (some w, st, [])
    | none =>
      if env.restoreOk = false then
        (none, st, [RegEvent.openStoreCall user])
      else
        let containerId := st.nextId
        let clientId := st.nextId + 1
        let loggedIn := env.deviceRegistered && env.connectOk
        let w : SessionWrapper := ⟨st.nextId + 2, clientId, containerId, user, loggedIn⟩
        let st2 : RegState :=
          { st with
            cmClients := alInsert st.cmClients user ⟨clientId, containerId, loggedIn⟩,
            nextId := st.nextId + 3 }
        let events := [RegEvent.openStoreCall user, RegEvent.addClientCall user] ++
          (if env.deviceRegistered then [RegEvent.connectCall user] else [])
        match alFind st2.sessions user with
        | some w2 => (some w2, st2, events ++ [RegEvent.closeContainerCall containerId])
        | none =>
          (some w, { st2 with sessions := alInsert st2.sessions user w }, events)

/-- Number of store opens (`sqlstore.New`) in an event trace. -/
def countStoreOpens (l : List RegEvent) : Nat :=
  l.countP fun e => match e with
    | RegEvent.openStoreCall _ => true
    | _ => false

/-- C1 counterexample: on a fresh process with a restorable store for
"bob", two (serialized) `FindSessionByUser("bob")` calls do not return the
same Session instance: the first returns the wrapper allocated by the
restore, while the second call hits the `ClientManager` and allocates a new
legacy `app.Session` wrapper (wrapper ids 2 and 3) around the same client. -/
theorem registry_same_instance_counterexample :
    (findSessionByUser ⟨[], [], 0⟩ "bob" ⟨true, true, true⟩).1 =
      some ⟨2, 1, 0, "bob", true⟩ ∧
    (findSessionByUser (findSessionByUser ⟨[], [], 0⟩ "bob" ⟨true, true, true⟩).2.1 "bob"
        ⟨true, true, true⟩).1 = some ⟨3, 1, 0, "bob", true⟩ ∧
    (findSessionByUser ⟨[], [], 0⟩ "bob" ⟨true, true, true⟩).1 ≠
      (findSessionByUser (findSessionByUser ⟨[], [], 0⟩ "bob" ⟨true, true, true⟩).2.1 "bob"
        ⟨true, true, true⟩).1 := by
  refine ⟨rfl, rfl, by decide⟩

/-- C1 (amended): for a user with no registered client and no legacy
session entry whose restore succeeds, two serialized `FindSessionByUser`
calls return Sessions backed by the same client and the same store
container, the store is opened exactly once, and the `ClientManager` maps
the user to that single client — but the two returned legacy Session
wrappers are distinct allocations, not the same instance. -/
theorem registry_single_store (st : RegState) (user : String) (env env2 : RestoreEnv)
    (hcm : alFind st.cmClients user = none)
    (hsess : alFind st.sessions user = none)
    (hok : env.restoreOk = true) :
    (findSessionByUser st user env).1.map SessionWrapper.clientId =
      ((findSessionByUser (findSessionByUser st user env).2.1 user env2).1.map
        SessionWrapper.clientId) ∧
    (findSessionByUser st user env).1.map SessionWrapper.containerId =
      ((findSessionByUser (findSessionByUser st user env).2.1 user env2).1.map
        SessionWrapper.containerId) ∧
    ((findSessionByUser st user env).1.map SessionWrapper.clientId).isSome = true ∧
    (findSessionByUser st user env).1.map SessionWrapper.wrapperId ≠
      (findSessionByUser (findSessionByUser st user env).2.1 user env2).1.map
        SessionWrapper.wrapperId ∧
    countStoreOpens ((findSessionByUser st user env).2.2 ++
      (findSessionByUser (findSessionByUser st user env).2.1 user env2).2.2) = 1 ∧
    alFind (findSessionByUser (findSessionByUser st user env).2.1 user env2).2.1.cmClients
        user =
      some ⟨st.nextId + 1, st.nextId, env.deviceRegistered && env.connectOk⟩ := by
  have h1 : findSessionByUser st user env =
      (some ⟨st.nextId + 2, st.nextId + 1, st.nextId, user,
         env.deviceRegistered && env.connectOk⟩,
       ⟨alInsert st.cmClients user
           ⟨st.nextId + 1, st.nextId, env.deviceRegistered && env.connectOk⟩,
         alInsert st.sessions user
           ⟨st.nextId + 2, st.nextId + 1, st.nextId, user,
             env.deviceRegistered && env.connectOk⟩,
         st.nextId + 3⟩,
       [RegEvent.openStoreCall user, RegEvent.addClientCall user] ++
         (if env.deviceRegistered then [RegEvent.connectCall user] else [])) := by
    simp only [findSessionByUser, hcm, hsess, hok]
    simp
  have hfind : alFind (alInsert st.cmClients user
      ⟨st.nextId + 1, st.nextId, env.deviceRegistered && env.connectOk⟩) user =
      some ⟨st.nextId + 1, st.nextId, env.deviceRegistered && env.connectOk⟩ :=
    alFind_alInsert st.cmClients user _
  have h2 : findSessionByUser (findSessionByUser st user env).2.1 user env2 =
      (some ⟨st.nextId + 3, st.nextId + 1, st.nextId, user,
         env.deviceRegistered && env.connectOk⟩,
       ⟨alInsert st.cmClients user
           ⟨st.nextId + 1, st.nextId, env.deviceRegistered && env.connectOk⟩,
         alInsert st.sessions user
           ⟨st.nextId + 2, st.nextId + 1, st.nextId, user,
             env.deviceRegistered && env.connectOk⟩,
         st.nextId + 4⟩,
       []) := by
    rw [h1]
    simp only [findSessionByUser, hfind]
  rw [h2, h1]
  refine ⟨rfl, rfl, rfl, by simp, ?_, hfind⟩
  cases env.deviceRegistered <;> simp [countStoreOpens]

/-- C1 witness: the concrete two-call run on a fresh process for "bob"
opens the store once, registers a single client, and yields two wrappers
sharing client 1 and container 0. -/
theorem registry_single_store_witness :
    (findSessionByUser ⟨[], [], 0⟩ "bob" ⟨true, true, true⟩).1.map SessionWrapper.clientId =
      ((findSessionByUser (findSessionByUser ⟨[], [], 0⟩ "bob" ⟨true, true, true⟩).2.1 "bob"
        ⟨true, true, true⟩).1.map SessionWrapper.clientId) ∧
    countStoreOpens ((findSessionByUser ⟨[], [], 0⟩ "bob" ⟨true, true, true⟩).2.2 ++
      (findSessionByUser (findSessionByUser ⟨[], [], 0⟩ "bob" ⟨true, true, true⟩).2.1 "bob"
        ⟨true, true, true⟩).2.2) = 1 := by
  have h := registry_single_store ⟨[], [], 0⟩ "bob" ⟨true, true, true⟩ ⟨true, true, true⟩
    rfl rfl rfl
  exact ⟨h.1, h.2.2.2.2.1⟩

/-! ## Logout (session Service.LogoutSession, ClientManager-aware revision) -/

/-- Process state touched by `LogoutSession`: the two registries, the
per-client websocket connection status, and the on-disk store files. -/
structure LogoutState where
  cmClients : List (String × CMClient)
  sessions : List (String × SessionWrapper)
  connected : List (Nat × Bool)
  files : List String
deriving Repr, DecidableEq

/-- Observable actions of `LogoutSession`. -/
inductive LogoutAction where
  | disconnectCall (cid : Nat)
  | closeContainerCall (cid : Nat)
  | upstreamLogoutCall (cid : Nat)
  | removeFileCall (user : String)
deriving Repr, DecidableEq

/-- Oracle for the fallible cleanup steps: the upstream `Logout()` result
and the `os.Remove` result; both failures are logged only. -/
structure LogoutEnv where
  logoutOk : Bool
  removeFileOk : Bool
deriving Repr, DecidableEq

/-- Connection status of a client id (`WhatsmeowClient.IsConnected()`). -/
def connFind (l : List (Nat × Bool)) (cid : Nat) : Bool :=
  (alFind l cid).getD false

/-- `Service.LogoutSession` (session service lines 866-934): first remove
the user's client from the `ClientManager` (`RemoveClient` disconnects a
connected client and closes its container), then find the legacy session
(error if absent), then — step 1 — call the upstream `logout()` followed by
`disconnect()` only if the shared client still reports connected, else skip
the upstream logout; step 2 close the container; step 3 delete the on-disk
store file (failure logged only); step 4 remove the session from the
legacy map.  Returns Go success, the final state and the action trace. -/
def logoutSession (st : LogoutState) (user : String) (env : LogoutEnv) :
    Bool × LogoutState × List LogoutAction :=
  let (st, tr) :=
    match alFind st.cmClients user with
    | none => (st, ([] : List LogoutAction))
    | some cm =>
      let (st, tr) :=
        if connFind st.connected cm.clientId then
          ({ st with connected := alInsert st.connected cm.clientId false },
           [LogoutAction.disconnectCall cm.clientId])
        else (st, [])
      ({ st with cmClients := alErase st.cmClients user },
       tr ++ [LogoutAction.closeContainerCall cm.containerId])
  match alFind st.sessions user with
  | none => (false, st, tr)
  | some sess =>
    let (st, tr) :=
      if connFind st.connected sess.clientId then
        ({ st with connected := alInsert st.connected sess.clientId false },
         tr ++ [LogoutAction.upstreamLogoutCall sess.clientId,
           LogoutAction.disconnectCall sess.clientId])
      else (st, tr)
    let tr := tr ++ [LogoutAction.closeContainerCall sess.containerId]
    let (st, tr) :=
      if env.removeFileOk then
        ({ st with files := st.files.filter (fun f => decide (f ≠ user)) },
         tr ++ [LogoutAction.removeFileCall user])
      else (st, tr ++ [LogoutAction.removeFileCall user])
    (true, { st with sessions := alErase st.sessions user }, tr)

/-- Number of upstream `Logout()` calls in a trace. -/
def countLogoutCalls (l : List LogoutAction) : Nat :=
  l.countP fun a => match a with
    | LogoutAction.upstreamLogoutCall _ => true
    | _ => false

/-- C9 (code bug): for a connected session registered in both the
`ClientManager` and the legacy map, `LogoutSession` never calls the
upstream `logout()`: the initial `RemoveClient` disconnects the shared
client and closes its container, so the logout step sees a disconnected
transport and skips the upstream logout, and the store container is closed
before (and again after) the logout/disconnect step.  The cleanup still
runs to completion: the file is deleted and both registries end without an
entry for the user. -/
theorem logout_skips_upstream_logout :
    connFind (⟨[("u", ⟨1, 0, true⟩)], [("u", ⟨2, 1, 0, "u", true⟩)], [(1, true)],
      ["u"]⟩ : LogoutState).connected 1 = true ∧
    (logoutSession ⟨[("u", ⟨1, 0, true⟩)], [("u", ⟨2, 1, 0, "u", true⟩)], [(1, true)], ["u"]⟩
      "u" ⟨true, true⟩).1 = true ∧
    countLogoutCalls (logoutSession ⟨[("u", ⟨1, 0, true⟩)], [("u", ⟨2, 1, 0, "u", true⟩)],
      [(1, true)], ["u"]⟩ "u" ⟨true, true⟩).2.2 = 0 ∧
    (logoutSession ⟨[("u", ⟨1, 0, true⟩)], [("u", ⟨2, 1, 0, "u", true⟩)], [(1, true)], ["u"]⟩
      "u" ⟨true, true⟩).2.2 =
      [LogoutAction.disconnectCall 1, LogoutAction.closeContainerCall 0,
       LogoutAction.closeContainerCall 0, LogoutAction.removeFileCall "u"] ∧
    alFind (logoutSession ⟨[("u", ⟨1, 0, true⟩)], [("u", ⟨2, 1, 0, "u", true⟩)], [(1, true)],
      ["u"]⟩ "u" ⟨true, true⟩).2.1.cmClients "u" = none ∧
    alFind (logoutSession ⟨[("u", ⟨1, 0, true⟩)], [("u", ⟨2, 1, 0, "u", true⟩)], [(1, true)],
      ["u"]⟩ "u" ⟨true, true⟩).2.1.sessions "u" = none ∧
    (logoutSession ⟨[("u", ⟨1, 0, true⟩)], [("u", ⟨2, 1, 0, "u", true⟩)], [(1, true)], ["u"]⟩
      "u" ⟨true, true⟩).2.1.files = [] := by
  refine ⟨rfl, rfl, rfl, by decide, by decide, by decide, by decide⟩

end GolangWa
